import Mathlib

/-!
Verification development for the "Starry Night" canvas particle system
(src/starry-night.js): a shallow embedding of the per-tick physics update
(vortex forces, pointer force, damping, integration, edge wrap, trail
maintenance), the shooting-star lifecycle, the star-population sizing and
the scroll-derived dim factor, together with theorems settling the spec's
claims about them.

Positions, velocities and sizes are modelled as real numbers (the source
computes with square roots and sines); the star-count formula is modelled
over naturals (the source takes a floor of a product) and the scroll dim
factor over rationals (pure field arithmetic).
-/

namespace StarryNight

/-- A star record, as produced by makeStar (src lines 78-90).  The color
field is omitted: no claim mentions it and it never changes. -/
@[ext]
structure Star where
  x : ℝ
  y : ℝ
  vx : ℝ
  vy : ℝ
  size : ℝ
  baseSize : ℝ
  twinkleK : ℝ
  twinkleP : ℝ
  trail : List (ℝ × ℝ)
  maxTrail : ℕ

/-- A vortex center (src lines 52-58): position, signed strength, radius. -/
@[ext]
structure Vortex where
  x : ℝ
  y : ℝ
  str : ℝ
  r : ℝ

/-- A shooting star, as produced by spawnShootingStar (src lines 105-115).
Trail samples are (x, y, life-at-sample) triples (src line 230). -/
@[ext]
structure ShootingStar where
  x : ℝ
  y : ℝ
  vx : ℝ
  vy : ℝ
  life : ℝ
  decay : ℝ
  trail : List (ℝ × ℝ × ℝ)
  maxTrail : ℕ
  size : ℝ

/-! ### Star population sizing (initStars, src lines 93-97) -/

/-- Star population size: `Math.min(280, Math.floor((W * H) / 5200))`
(src line 94).  Over naturals, `Math.floor` of the exact quotient is
natural division. -/
def starCount (W H : ℕ) : ℕ := min 280 (W * H / 5200)

/-- initStars (src lines 93-97): the stars list is rebuilt from scratch with
`starCount` freshly made stars.  The factory is randomized; it is passed in
as a function from the loop index. -/
def initStars (W H : ℕ) (mk : ℕ → Star) : List Star :=
  (List.range (starCount W H)).map mk

/-! ### Scroll-derived dim factor (src lines 333-336) -/

/-- The scroll listener's dim factor:
`Math.max(0.35, 1 - window.scrollY / (vh * 1.8))` (src line 335). -/
def scrollDimOf (scrollY vh : ℚ) : ℚ :=
  max 0.35 (1 - scrollY / (vh * 1.8))

/-! ### Per-star physics update (update, src lines 167-222) -/

/-- Twinkle step (src lines 171-172):
`s.size = s.baseSize * (0.65 + 0.35 * Math.sin(time * s.twinkleK * 60 + s.twinkleP))`. -/
noncomputable def twinkleStar (time : ℝ) (s : Star) : Star :=
  { s with size := s.baseSize * (0.65 + 0.35 * Real.sin (time * s.twinkleK * 60 + s.twinkleP)) }

/-- Distance from the point (x, y) to the vortex center (src line 179). -/
noncomputable def vdist (x y : ℝ) (vt : Vortex) : ℝ :=
  Real.sqrt ((x - vt.x) * (x - vt.x) + (y - vt.y) * (y - vt.y))

/-- The falloff factor `f = (1 - d / vt.r) * vt.str * 0.25` (src line 181). -/
noncomputable def falloff (x y : ℝ) (vt : Vortex) : ℝ :=
  (1 - vdist x y vt / vt.r) * vt.str * 0.25

/-- The net velocity change a single vortex contributes to a star sitting at
(x, y): zero outside the guard `d < vt.r && d > 1`, otherwise the tangential
increment followed by the centripetal one (src lines 180-188), combined. -/
noncomputable def vortexDelta (x y : ℝ) (vt : Vortex) : ℝ × ℝ :=
  let dx := x - vt.x
  let dy := y - vt.y
  let d := Real.sqrt (dx * dx + dy * dy)
  if d < vt.r ∧ d > 1 then
    let f := (1 - d / vt.r) * vt.str * 0.25
    ((-dy / d) * f - (dx / d) * f * 0.08, (dx / d) * f - (dy / d) * f * 0.08)
  else (0, 0)

/-- One iteration of the vortex loop body (src lines 176-188): inside the
guard the star's velocity receives the tangential increment and then the
slight centripetal pull, exactly in the source's order. -/
noncomputable def applyVortex (s : Star) (vt : Vortex) : Star :=
  let dx := s.x - vt.x
  let dy := s.y - vt.y
  let d := Real.sqrt (dx * dx + dy * dy)
  if d < vt.r ∧ d > 1 then
    let f := (1 - d / vt.r) * vt.str * 0.25
    let s1 := { s with vx := s.vx + (-dy / d) * f, vy := s.vy + (dx / d) * f }
    { s1 with vx := s1.vx - (dx / d) * f * 0.08, vy := s1.vy - (dy / d) * f * 0.08 }
  else s

/-- The vortex loop (src lines 175-189): every center acts on the star in
order. -/
noncomputable def applyVortices (s : Star) (vts : List Vortex) : Star :=
  vts.foldl applyVortex s

/-- Mouse influence (src lines 192-201): no-op when the pointer sample is
absent; otherwise a tangential-only increment inside radius 280. -/
noncomputable def applyMouse (m : Option (ℝ × ℝ)) (s : Star) : Star :=
  match m with
  | none => s
  | some mp =>
    let dx := s.x - mp.1
    let dy := s.y - mp.2
    let d := Real.sqrt (dx * dx + dy * dy)
    if d < 280 ∧ d > 1 then
      let f := (1 - d / 280) * 0.45
      { s with vx := s.vx + (-dy / d) * f, vy := s.vy + (dx / d) * f }
    else s

/-- Damping (src lines 204-205): both velocity components shrink by the
factor 0.975. -/
noncomputable def dampStar (s : Star) : Star :=
  { s with vx := s.vx * 0.975, vy := s.vy * 0.975 }

/-- Euler step (src lines 208-209). -/
noncomputable def moveStar (s : Star) : Star :=
  { s with x := s.x + s.vx, y := s.y + s.vy }

/-- The wrap condition of src lines 212-216: one of the four edge tests
fires (the second x test and the second y test see the already-adjusted
coordinate, as in the source). -/
def wrappedCond (Wd Hd : ℝ) (s : Star) : Prop :=
  s.x < -20 ∨ (if s.x < -20 then s.x + (Wd + 40) else s.x) > Wd + 20 ∨
  s.y < -20 ∨ (if s.y < -20 then s.y + (Hd + 40) else s.y) > Hd + 20

/-- Edge wrap (src lines 212-217): a coordinate beyond a surface bound by
more than the 20-unit margin is translated by W+40 (resp. H+40) to the
opposite edge, and any wrap clears the trail. -/
noncomputable def wrapStar (Wd Hd : ℝ) (s : Star) : Star :=
  let x1 := if s.x < -20 then s.x + (Wd + 40) else s.x
  let x2 := if x1 > Wd + 20 then x1 - (Wd + 40) else x1
  let y1 := if s.y < -20 then s.y + (Hd + 40) else s.y
  let y2 := if y1 > Hd + 20 then y1 - (Hd + 40) else y1
  if s.x < -20 ∨ x1 > Wd + 20 ∨ s.y < -20 ∨ y1 > Hd + 20 then
    { s with x := x2, y := y2, trail := [] }
  else
    { s with x := x2, y := y2 }

/-- Trail maintenance (src lines 220-221): push the current position, then
shift the oldest sample out if the capacity is exceeded. -/
def trailPushStar (s : Star) : Star :=
  let t := s.trail ++ [(s.x, s.y)]
  { s with trail := if t.length > s.maxTrail then t.tail else t }

/-- The whole per-star body of update (src lines 167-222) for one tick:
twinkle, vortex forces, mouse influence, damping, Euler step, edge wrap,
trail push. -/
noncomputable def starTick (time : ℝ) (vts : List Vortex) (m : Option (ℝ × ℝ))
    (Wd Hd : ℝ) (s : Star) : Star :=
  trailPushStar (wrapStar Wd Hd (moveStar (dampStar (applyMouse m
    (applyVortices (twinkleStar time s) vts)))))

/-- The per-star body with the mouse branch removed entirely, for comparison
with the absent-pointer tick. -/
noncomputable def starTickNoPointer (time : ℝ) (vts : List Vortex)
    (Wd Hd : ℝ) (s : Star) : Star :=
  trailPushStar (wrapStar Wd Hd (moveStar (dampStar
    (applyVortices (twinkleStar time s) vts))))

/-- Iterated ticks: the time value and pointer sample may change between
ticks, so they are drawn from an input stream. -/
noncomputable def runTicks (vts : List Vortex) (Wd Hd : ℝ)
    (ins : ℕ → ℝ × Option (ℝ × ℝ)) : ℕ → Star → Star
  | 0, s => s
  | n + 1, s => runTicks vts Wd Hd ins n (starTick (ins n).1 vts (ins n).2 Wd Hd s)

/-! ### Shooting-star lifecycle (src lines 102-116 and 162-165, 225-233) -/

/-- The spawn step at the top of update (src lines 163-165): a new shooting
star is appended only when the probabilistic roll succeeds and fewer than 2
are active.  The roll and the freshly randomized record are inputs. -/
def spawnPhase (roll : Bool) (newSS : ShootingStar) (l : List ShootingStar) :
    List ShootingStar :=
  if roll ∧ l.length < 2 then l ++ [newSS] else l

/-- The per-shooting-star body (src lines 226-231): integrate position,
decrement life by the decay rate, push a (position, life) trail sample,
evict the oldest beyond capacity. -/
def advanceShootingStar (ss : ShootingStar) : ShootingStar :=
  let x1 := ss.x + ss.vx
  let y1 := ss.y + ss.vy
  let life1 := ss.life - ss.decay
  let t := ss.trail ++ [(x1, y1, life1)]
  { ss with x := x1, y := y1, life := life1,
            trail := if t.length > ss.maxTrail then t.tail else t }

/-- Removal (src line 232): entities whose decremented life is ≤ 0 are
spliced out, in place, order preserved. -/
noncomputable def cullShootingStars : List ShootingStar → List ShootingStar
  | [] => []
  | ss :: rest =>
    if ss.life ≤ 0 then cullShootingStars rest else ss :: cullShootingStars rest

/-- The shooting-star part of one update tick: spawn (src lines 163-165),
then advance and cull every active entity (src lines 225-233). -/
noncomputable def shootingTick (roll : Bool) (newSS : ShootingStar)
    (l : List ShootingStar) : List ShootingStar :=
  cullShootingStars ((spawnPhase roll newSS l).map advanceShootingStar)

/-- Iterated shooting-star ticks, with the roll and spawn parameters drawn
from an input stream. -/
noncomputable def runShootingTicks (ins : ℕ → Bool × ShootingStar) :
    ℕ → List ShootingStar → List ShootingStar
  | 0, l => l
  | n + 1, l => runShootingTicks ins n (shootingTick (ins n).1 (ins n).2 l)

/-! ### Field-preservation lemmas for the per-star steps -/

@[simp]
lemma twinkleStar_x (time : ℝ) (s : Star) : (twinkleStar time s).x = s.x := rfl

@[simp]
lemma twinkleStar_y (time : ℝ) (s : Star) : (twinkleStar time s).y = s.y := rfl

@[simp]
lemma twinkleStar_vx (time : ℝ) (s : Star) : (twinkleStar time s).vx = s.vx := rfl

@[simp]
lemma twinkleStar_vy (time : ℝ) (s : Star) : (twinkleStar time s).vy = s.vy := rfl

@[simp]
lemma twinkleStar_trail (time : ℝ) (s : Star) : (twinkleStar time s).trail = s.trail := rfl

@[simp]
lemma twinkleStar_maxTrail (time : ℝ) (s : Star) : (twinkleStar time s).maxTrail = s.maxTrail := rfl

@[simp]
lemma twinkleStar_baseSize (time : ℝ) (s : Star) : (twinkleStar time s).baseSize = s.baseSize := rfl

@[simp]
lemma applyVortex_x (s : Star) (vt : Vortex) : (applyVortex s vt).x = s.x := by
  simp only [applyVortex]; split_ifs <;> rfl

@[simp]
lemma applyVortex_y (s : Star) (vt : Vortex) : (applyVortex s vt).y = s.y := by
  simp only [applyVortex]; split_ifs <;> rfl

@[simp]
lemma applyVortex_trail (s : Star) (vt : Vortex) : (applyVortex s vt).trail = s.trail := by
  simp only [applyVortex]; split_ifs <;> rfl

@[simp]
lemma applyVortex_maxTrail (s : Star) (vt : Vortex) : (applyVortex s vt).maxTrail = s.maxTrail := by
  simp only [applyVortex]; split_ifs <;> rfl

@[simp]
lemma applyVortex_baseSize (s : Star) (vt : Vortex) : (applyVortex s vt).baseSize = s.baseSize := by
  simp only [applyVortex]; split_ifs <;> rfl

lemma applyVortex_vx (s : Star) (vt : Vortex) :
    (applyVortex s vt).vx = s.vx + (vortexDelta s.x s.y vt).1 := by
  simp only [applyVortex, vortexDelta]
  split_ifs
  · simp only []
    ring
  · simp

lemma applyVortex_vy (s : Star) (vt : Vortex) :
    (applyVortex s vt).vy = s.vy + (vortexDelta s.x s.y vt).2 := by
  simp only [applyVortex, vortexDelta]
  split_ifs
  · simp only []
    ring
  · simp

@[simp]
lemma applyVortices_x (s : Star) (vts : List Vortex) : (applyVortices s vts).x = s.x := by
  induction vts generalizing s with
  | nil => rfl
  | cons v rest ih => simp [applyVortices, List.foldl_cons] at ih ⊢; rw [ih]; simp

@[simp]
lemma applyVortices_y (s : Star) (vts : List Vortex) : (applyVortices s vts).y = s.y := by
  induction vts generalizing s with
  | nil => rfl
  | cons v rest ih => simp [applyVortices, List.foldl_cons] at ih ⊢; rw [ih]; simp

@[simp]
lemma applyVortices_trail (s : Star) (vts : List Vortex) :
    (applyVortices s vts).trail = s.trail := by
  induction vts generalizing s with
  | nil => rfl
  | cons v rest ih => simp [applyVortices, List.foldl_cons] at ih ⊢; rw [ih]; simp

@[simp]
lemma applyVortices_maxTrail (s : Star) (vts : List Vortex) :
    (applyVortices s vts).maxTrail = s.maxTrail := by
  induction vts generalizing s with
  | nil => rfl
  | cons v rest ih => simp [applyVortices, List.foldl_cons] at ih ⊢; rw [ih]; simp

@[simp]
lemma applyVortices_baseSize (s : Star) (vts : List Vortex) :
    (applyVortices s vts).baseSize = s.baseSize := by
  induction vts generalizing s with
  | nil => rfl
  | cons v rest ih => simp [applyVortices, List.foldl_cons] at ih ⊢; rw [ih]; simp

lemma applyVortices_vx (s : Star) (vts : List Vortex) :
    (applyVortices s vts).vx = s.vx + (vts.map (fun v => (vortexDelta s.x s.y v).1)).sum := by
  induction vts generalizing s with
  | nil => simp [applyVortices]
  | cons v rest ih =>
    simp only [applyVortices, List.foldl_cons] at ih ⊢
    rw [ih, applyVortex_vx]
    simp [List.sum_cons]
    ring

lemma applyVortices_vy (s : Star) (vts : List Vortex) :
    (applyVortices s vts).vy = s.vy + (vts.map (fun v => (vortexDelta s.x s.y v).2)).sum := by
  induction vts generalizing s with
  | nil => simp [applyVortices]
  | cons v rest ih =>
    simp only [applyVortices, List.foldl_cons] at ih ⊢
    rw [ih, applyVortex_vy]
    simp [List.sum_cons]
    ring

/-! ### Preservation lemmas for the later per-star steps -/

@[simp]
lemma applyMouse_x (m : Option (ℝ × ℝ)) (s : Star) : (applyMouse m s).x = s.x := by
  cases m with
  | none => rfl
  | some mp => simp only [applyMouse]; split_ifs <;> rfl

@[simp]
lemma applyMouse_y (m : Option (ℝ × ℝ)) (s : Star) : (applyMouse m s).y = s.y := by
  cases m with
  | none => rfl
  | some mp => simp only [applyMouse]; split_ifs <;> rfl

@[simp]
lemma applyMouse_trail (m : Option (ℝ × ℝ)) (s : Star) : (applyMouse m s).trail = s.trail := by
  cases m with
  | none => rfl
  | some mp => simp only [applyMouse]; split_ifs <;> rfl

@[simp]
lemma applyMouse_maxTrail (m : Option (ℝ × ℝ)) (s : Star) :
    (applyMouse m s).maxTrail = s.maxTrail := by
  cases m with
  | none => rfl
  | some mp => simp only [applyMouse]; split_ifs <;> rfl

@[simp]
lemma applyMouse_baseSize (m : Option (ℝ × ℝ)) (s : Star) :
    (applyMouse m s).baseSize = s.baseSize := by
  cases m with
  | none => rfl
  | some mp => simp only [applyMouse]; split_ifs <;> rfl

@[simp]
lemma dampStar_x (s : Star) : (dampStar s).x = s.x := rfl

@[simp]
lemma dampStar_y (s : Star) : (dampStar s).y = s.y := rfl

@[simp]
lemma dampStar_trail (s : Star) : (dampStar s).trail = s.trail := rfl

@[simp]
lemma dampStar_maxTrail (s : Star) : (dampStar s).maxTrail = s.maxTrail := rfl

@[simp]
lemma dampStar_baseSize (s : Star) : (dampStar s).baseSize = s.baseSize := rfl

@[simp]
lemma moveStar_trail (s : Star) : (moveStar s).trail = s.trail := rfl

@[simp]
lemma moveStar_maxTrail (s : Star) : (moveStar s).maxTrail = s.maxTrail := rfl

@[simp]
lemma moveStar_baseSize (s : Star) : (moveStar s).baseSize = s.baseSize := rfl

@[simp]
lemma wrapStar_maxTrail (Wd Hd : ℝ) (s : Star) :
    (wrapStar Wd Hd s).maxTrail = s.maxTrail := by
  simp only [wrapStar]; split_ifs <;> rfl

@[simp]
lemma wrapStar_baseSize (Wd Hd : ℝ) (s : Star) :
    (wrapStar Wd Hd s).baseSize = s.baseSize := by
  simp only [wrapStar]; split_ifs <;> rfl

lemma wrapStar_trail_cases (Wd Hd : ℝ) (s : Star) :
    (wrapStar Wd Hd s).trail = [] ∨ (wrapStar Wd Hd s).trail = s.trail := by
  simp only [wrapStar]
  split_ifs <;> simp

lemma wrapStar_trail_of_wrapped (Wd Hd : ℝ) (s : Star) (h : wrappedCond Wd Hd s) :
    (wrapStar Wd Hd s).trail = [] := by
  unfold wrappedCond at h
  simp only [wrapStar]
  rw [if_pos h]

@[simp]
lemma trailPushStar_maxTrail (s : Star) : (trailPushStar s).maxTrail = s.maxTrail := rfl

@[simp]
lemma trailPushStar_baseSize (s : Star) : (trailPushStar s).baseSize = s.baseSize := rfl

lemma trailPushStar_trail (s : Star) :
    (trailPushStar s).trail =
      if (s.trail ++ [(s.x, s.y)]).length > s.maxTrail
      then (s.trail ++ [(s.x, s.y)]).tail
      else s.trail ++ [(s.x, s.y)] := rfl

lemma trailPushStar_length_le (s : Star) (h : s.trail.length ≤ s.maxTrail) :
    (trailPushStar s).trail.length ≤ s.maxTrail := by
  rw [trailPushStar_trail]
  split_ifs with hlen
  · simp only [List.length_tail, List.length_append, List.length_singleton]
    omega
  · simp only [List.length_append, List.length_singleton] at hlen ⊢
    omega

/-! ### In-range and out-of-range vortex behavior -/

lemma vortexDelta_of_inRange (x y : ℝ) (vt : Vortex)
    (h1 : 1 < vdist x y vt) (h2 : vdist x y vt < vt.r) :
    vortexDelta x y vt =
      (falloff x y vt * (-(y - vt.y) / vdist x y vt)
         + 0.08 * falloff x y vt * (-((x - vt.x) / vdist x y vt)),
       falloff x y vt * ((x - vt.x) / vdist x y vt)
         + 0.08 * falloff x y vt * (-((y - vt.y) / vdist x y vt))) := by
  simp only [vortexDelta, falloff]
  unfold vdist at h1 h2 ⊢
  rw [if_pos ⟨h2, h1⟩]
  simp only [Prod.mk.injEq]
  constructor <;> ring

lemma vortexDelta_of_outRange (x y : ℝ) (vt : Vortex)
    (h : vt.r ≤ vdist x y vt ∨ vdist x y vt ≤ 1) :
    vortexDelta x y vt = (0, 0) := by
  simp only [vortexDelta]
  unfold vdist at h
  rcases h with h | h
  · rw [if_neg (fun hc => absurd hc.1 (not_lt.mpr h))]
  · rw [if_neg (fun hc => absurd hc.2 (not_lt.mpr h))]

lemma applyVortex_of_outRange (s : Star) (vt : Vortex)
    (h : vt.r ≤ vdist s.x s.y vt ∨ vdist s.x s.y vt ≤ 1) :
    applyVortex s vt = s := by
  simp only [applyVortex]
  unfold vdist at h
  rcases h with h | h
  · rw [if_neg (fun hc => absurd hc.1 (not_lt.mpr h))]
  · rw [if_neg (fun hc => absurd hc.2 (not_lt.mpr h))]

/-! ### Claim theorems -/

/-- C1: during one update tick, a star within a vortex's radius (and beyond
the unit singularity guard) receives the tangential increment of magnitude
f = (1 - d/radius) * strength * 0.25 along the unit vector perpendicular to
the radius vector, plus the centripetal increment of magnitude 0.08 * f
along the unit vector toward the center; a vortex with d ≥ radius or d ≤ 1
contributes exactly zero velocity change, and the contributions of a list
of vortices accumulate additively with no normalization. -/
theorem vortex_force_rule (s : Star) (vt : Vortex) (vts : List Vortex) :
    (1 < vdist s.x s.y vt → vdist s.x s.y vt < vt.r →
      (applyVortex s vt).vx
          = s.vx + falloff s.x s.y vt * (-(s.y - vt.y) / vdist s.x s.y vt)
            + 0.08 * falloff s.x s.y vt * (-((s.x - vt.x) / vdist s.x s.y vt)) ∧
      (applyVortex s vt).vy
          = s.vy + falloff s.x s.y vt * ((s.x - vt.x) / vdist s.x s.y vt)
            + 0.08 * falloff s.x s.y vt * (-((s.y - vt.y) / vdist s.x s.y vt))) ∧
    (vt.r ≤ vdist s.x s.y vt ∨ vdist s.x s.y vt ≤ 1 → applyVortex s vt = s) ∧
    (applyVortices s vts).vx = s.vx + (vts.map (fun v => (vortexDelta s.x s.y v).1)).sum ∧
    (applyVortices s vts).vy = s.vy + (vts.map (fun v => (vortexDelta s.x s.y v).2)).sum := by
  refine ⟨?_, applyVortex_of_outRange s vt, applyVortices_vx s vts, applyVortices_vy s vts⟩
  intro h1 h2
  rw [applyVortex_vx, applyVortex_vy, vortexDelta_of_inRange s.x s.y vt h1 h2]
  constructor <;> ring

/-- A concrete star at (3, 4) used by witnesses. -/
def star0 : Star := ⟨3, 4, 0, 0, 1, 1, 0.02, 0, [], 12⟩

/-- A vortex at the origin with radius 10, at distance 5 from star0. -/
def vtIn : Vortex := ⟨0, 0, 1, 10⟩

/-- A vortex sitting exactly on star0, at distance 0 (inside the d ≤ 1
singularity guard). -/
def vtOut : Vortex := ⟨3, 4, 1, 10⟩

lemma vdist_star0_vtIn : vdist star0.x star0.y vtIn = 5 := by
  unfold vdist star0 vtIn
  simp only []
  rw [show ((3:ℝ) - 0) * ((3:ℝ) - 0) + ((4:ℝ) - 0) * ((4:ℝ) - 0) = 5 ^ 2 by norm_num]
  exact Real.sqrt_sq (by norm_num)

lemma vdist_star0_vtOut : vdist star0.x star0.y vtOut = 0 := by
  unfold vdist star0 vtOut
  simp only []
  rw [show ((3:ℝ) - 3) * ((3:ℝ) - 3) + ((4:ℝ) - 4) * ((4:ℝ) - 4) = 0 by norm_num]
  exact Real.sqrt_zero

/-- Witness for C1: the in-range rule at distance 5 from vtIn, and the
zero-contribution rule at distance 0 from vtOut. -/
theorem vortex_force_rule_witness :
    (1 < vdist star0.x star0.y vtIn ∧ vdist star0.x star0.y vtIn < vtIn.r ∧
      (vtOut.r ≤ vdist star0.x star0.y vtOut ∨ vdist star0.x star0.y vtOut ≤ 1)) ∧
    ((applyVortex star0 vtIn).vx
        = star0.vx + falloff star0.x star0.y vtIn * (-(star0.y - vtIn.y) / vdist star0.x star0.y vtIn)
          + 0.08 * falloff star0.x star0.y vtIn * (-((star0.x - vtIn.x) / vdist star0.x star0.y vtIn)) ∧
     (applyVortex star0 vtIn).vy
        = star0.vy + falloff star0.x star0.y vtIn * ((star0.x - vtIn.x) / vdist star0.x star0.y vtIn)
          + 0.08 * falloff star0.x star0.y vtIn * (-((star0.y - vtIn.y) / vdist star0.x star0.y vtIn))) ∧
    applyVortex star0 vtOut = star0 := by
  have h1 : 1 < vdist star0.x star0.y vtIn := by rw [vdist_star0_vtIn]; norm_num
  have h2 : vdist star0.x star0.y vtIn < vtIn.r := by
    rw [vdist_star0_vtIn]; norm_num [vtIn]
  have h3 : vtOut.r ≤ vdist star0.x star0.y vtOut ∨ vdist star0.x star0.y vtOut ≤ 1 :=
    Or.inr (by rw [vdist_star0_vtOut]; norm_num)
  exact ⟨⟨h1, h2, h3⟩, (vortex_force_rule star0 vtIn []).1 h1 h2,
    (vortex_force_rule star0 vtOut []).2.1 h3⟩

/-! ### Speed, damping, twinkle and pointer theorems -/

/-- Magnitude of a star's velocity vector. -/
noncomputable def speed (s : Star) : ℝ :=
  Real.sqrt (s.vx * s.vx + s.vy * s.vy)

/-- C5: for every star with nonzero velocity, the per-tick multiplicative
damping by 0.975 yields a strictly smaller velocity magnitude. -/
theorem damping_decreases_speed (s : Star) (h : s.vx ≠ 0 ∨ s.vy ≠ 0) :
    speed (dampStar s) < speed s := by
  have hpos : 0 < s.vx * s.vx + s.vy * s.vy := by
    rcases h with h | h
    · nlinarith [mul_self_pos.mpr h, mul_self_nonneg s.vy]
    · nlinarith [mul_self_pos.mpr h, mul_self_nonneg s.vx]
  simp only [speed, dampStar]
  apply Real.sqrt_lt_sqrt
  · nlinarith [mul_self_nonneg (s.vx * 0.975), mul_self_nonneg (s.vy * 0.975)]
  · nlinarith

/-- A concrete star with unit horizontal velocity, for the C5 witness. -/
def starD : Star := ⟨0, 0, 1, 0, 1, 1, 0.02, 0, [], 12⟩

/-- Witness for C5 at velocity (1, 0). -/
theorem damping_decreases_speed_witness :
    (starD.vx ≠ 0 ∨ starD.vy ≠ 0) ∧ speed (dampStar starD) < speed starD :=
  ⟨Or.inl (by norm_num [starD]),
   damping_decreases_speed starD (Or.inl (by norm_num [starD]))⟩

/-- C8: when the pointer sample is absent, the mouse branch is a no-op and
the whole tick coincides with a tick having no pointer term at all. -/
theorem pointer_absent_no_force (time : ℝ) (vts : List Vortex)
    (Wd Hd : ℝ) (s : Star) :
    applyMouse none s = s ∧
    starTick time vts none Wd Hd s = starTickNoPointer time vts Wd Hd s :=
  ⟨rfl, rfl⟩

/-- C10: the twinkle step keeps the displayed size between 0.3 and 1.0
times the base size (so it stays positive for a positive base size), and a
full update tick never modifies the base size itself. -/
theorem twinkle_size_bounds (time : ℝ) (s : Star) (h : 0 < s.baseSize) :
    0.3 * s.baseSize ≤ (twinkleStar time s).size ∧
    (twinkleStar time s).size ≤ 1.0 * s.baseSize ∧
    0 < (twinkleStar time s).size ∧
    ∀ (vts : List Vortex) (m : Option (ℝ × ℝ)) (Wd Hd : ℝ),
      (starTick time vts m Wd Hd s).baseSize = s.baseSize := by
  have hs1 : Real.sin (time * s.twinkleK * 60 + s.twinkleP) ≤ 1 := Real.sin_le_one _
  have hs2 : -1 ≤ Real.sin (time * s.twinkleK * 60 + s.twinkleP) := Real.neg_one_le_sin _
  have hval : (twinkleStar time s).size
      = s.baseSize * (0.65 + 0.35 * Real.sin (time * s.twinkleK * 60 + s.twinkleP)) := rfl
  refine ⟨?_, ?_, ?_, ?_⟩
  · rw [hval]; nlinarith
  · rw [hval]; nlinarith
  · rw [hval]; nlinarith
  · intro vts m Wd Hd
    simp [starTick]

/-- Witness for C10 at a unit base size. -/
theorem twinkle_size_bounds_witness :
    0 < star0.baseSize ∧
    (0.3 * star0.baseSize ≤ (twinkleStar 0 star0).size ∧
     (twinkleStar 0 star0).size ≤ 1.0 * star0.baseSize ∧
     0 < (twinkleStar 0 star0).size ∧
     ∀ (vts : List Vortex) (m : Option (ℝ × ℝ)) (Wd Hd : ℝ),
       (starTick 0 vts m Wd Hd star0).baseSize = star0.baseSize) :=
  ⟨by norm_num [star0], twinkle_size_bounds 0 star0 (by norm_num [star0])⟩

/-! ### Trail maintenance theorems -/

lemma starTick_maxTrail (time : ℝ) (vts : List Vortex) (m : Option (ℝ × ℝ))
    (Wd Hd : ℝ) (s : Star) :
    (starTick time vts m Wd Hd s).maxTrail = s.maxTrail := by
  simp [starTick]

lemma starTick_trail_length (time : ℝ) (vts : List Vortex) (m : Option (ℝ × ℝ))
    (Wd Hd : ℝ) (s : Star) (h : s.trail.length ≤ s.maxTrail) :
    (starTick time vts m Wd Hd s).trail.length ≤ s.maxTrail := by
  rw [starTick]
  set md := wrapStar Wd Hd (moveStar (dampStar (applyMouse m
    (applyVortices (twinkleStar time s) vts)))) with hmd
  have hmax : md.maxTrail = s.maxTrail := by rw [hmd]; simp
  have htr : md.trail.length ≤ md.maxTrail := by
    rcases wrapStar_trail_cases Wd Hd (moveStar (dampStar (applyMouse m
      (applyVortices (twinkleStar time s) vts)))) with hc | hc
    · rw [hmd, hc]; simp
    · rw [hmd, hc]; simp only [moveStar_trail, dampStar_trail, applyMouse_trail,
        applyVortices_trail, twinkleStar_trail]
      rw [hmd] at hmax
      rw [hmax]
      exact h
  have := trailPushStar_length_le md htr
  rw [hmax] at this
  exact this

/-- C2: whenever the integration step carries a star across a surface bound
(so the wrap of src lines 212-217 fires), the wrap clears the trail — the
trail sampler immediately after sees length 0 — and after that tick's single
sample the trail holds exactly one point. -/
theorem wrap_clears_trail (time : ℝ) (vts : List Vortex) (m : Option (ℝ × ℝ))
    (Wd Hd : ℝ) (s : Star)
    (hcap : 1 ≤ s.maxTrail)
    (h : wrappedCond Wd Hd (moveStar (dampStar (applyMouse m
      (applyVortices (twinkleStar time s) vts))))) :
    (wrapStar Wd Hd (moveStar (dampStar (applyMouse m
      (applyVortices (twinkleStar time s) vts))))).trail = [] ∧
    (starTick time vts m Wd Hd s).trail.length = 1 := by
  have h1 := wrapStar_trail_of_wrapped Wd Hd _ h
  refine ⟨h1, ?_⟩
  rw [starTick]
  set md := wrapStar Wd Hd (moveStar (dampStar (applyMouse m
    (applyVortices (twinkleStar time s) vts)))) with hmd
  have hmax : md.maxTrail = s.maxTrail := by rw [hmd]; simp
  rw [trailPushStar_trail, h1]
  have hnot : ¬ (([] ++ [(md.x, md.y)] : List (ℝ × ℝ)).length > md.maxTrail) := by
    simp only [List.nil_append, List.length_singleton]
    omega
  rw [if_neg hnot]
  simp

/-- C3: for every star whose trail starts within its capacity, after any
finite number of update ticks the trail length never exceeds that star's
(unchanged) capacity. -/
theorem trail_capacity_invariant (vts : List Vortex) (Wd Hd : ℝ)
    (ins : ℕ → ℝ × Option (ℝ × ℝ)) (n : ℕ) (s : Star)
    (h : s.trail.length ≤ s.maxTrail) :
    (runTicks vts Wd Hd ins n s).trail.length ≤ (runTicks vts Wd Hd ins n s).maxTrail ∧
    (runTicks vts Wd Hd ins n s).maxTrail = s.maxTrail := by
  induction n generalizing s with
  | zero => exact ⟨h, rfl⟩
  | succ k ih =>
    simp only [runTicks]
    have h1 := starTick_trail_length (ins k).1 vts (ins k).2 Wd Hd s h
    have h2 := starTick_maxTrail (ins k).1 vts (ins k).2 Wd Hd s
    have h3 : (starTick (ins k).1 vts (ins k).2 Wd Hd s).trail.length
        ≤ (starTick (ins k).1 vts (ins k).2 Wd Hd s).maxTrail := by rw [h2]; exact h1
    have := ih (starTick (ins k).1 vts (ins k).2 Wd Hd s) h3
    exact ⟨this.1, by rw [this.2, h2]⟩

/-- A concrete star beyond the left wrap margin, for the C2 witness. -/
def starW : Star := ⟨-40, 50, 0, 0, 1, 1, 0.02, 0, [], 12⟩

/-- Witness for C2: a star at x = -40 with zero velocity wraps during the
tick, its trail is cleared, and the tick ends with a single trail sample. -/
theorem wrap_clears_trail_witness :
    1 ≤ starW.maxTrail ∧
    wrappedCond 100 100 (moveStar (dampStar (applyMouse none
      (applyVortices (twinkleStar 0 starW) [])))) ∧
    ((wrapStar 100 100 (moveStar (dampStar (applyMouse none
        (applyVortices (twinkleStar 0 starW) []))))).trail = [] ∧
      (starTick 0 [] none 100 100 starW).trail.length = 1) := by
  have hm : wrappedCond 100 100 (moveStar (dampStar (applyMouse none
      (applyVortices (twinkleStar 0 starW) [])))) := by
    unfold wrappedCond
    left
    show (moveStar (dampStar (applyMouse none
      (applyVortices (twinkleStar 0 starW) [])))).x < -20
    norm_num [moveStar, dampStar, applyMouse, applyVortices, twinkleStar, starW]
  exact ⟨by norm_num [starW], hm,
    wrap_clears_trail 0 [] none 100 100 starW (by norm_num [starW]) hm⟩

/-- Witness for C3: two ticks starting from an empty trail with capacity 12. -/
theorem trail_capacity_invariant_witness :
    star0.trail.length ≤ star0.maxTrail ∧
    ((runTicks [] 100 100 (fun _ => (0, none)) 2 star0).trail.length
        ≤ (runTicks [] 100 100 (fun _ => (0, none)) 2 star0).maxTrail ∧
      (runTicks [] 100 100 (fun _ => (0, none)) 2 star0).maxTrail = star0.maxTrail) :=
  ⟨by simp [star0],
   trail_capacity_invariant [] 100 100 (fun _ => (0, none)) 2 star0 (by simp [star0])⟩

/-! ### Shooting-star theorems -/

lemma cullShootingStars_length_le (l : List ShootingStar) :
    (cullShootingStars l).length ≤ l.length := by
  induction l with
  | nil => simp [cullShootingStars]
  | cons a rest ih =>
    simp only [cullShootingStars]
    split_ifs
    · simp only [List.length_cons]; omega
    · simp only [List.length_cons]; omega

lemma mem_cullShootingStars {s' : ShootingStar} :
    ∀ {l : List ShootingStar}, s' ∈ cullShootingStars l → 0 < s'.life := by
  intro l
  induction l with
  | nil => intro h; simp [cullShootingStars] at h
  | cons a rest ih =>
    intro h
    simp only [cullShootingStars] at h
    split_ifs at h with ha
    · exact ih h
    · rcases List.mem_cons.mp h with rfl | h2
      · exact lt_of_not_le ha
      · exact ih h2

lemma spawnPhase_length_le (roll : Bool) (newSS : ShootingStar)
    (l : List ShootingStar) (h : l.length ≤ 2) :
    (spawnPhase roll newSS l).length ≤ 2 := by
  simp only [spawnPhase]
  split_ifs with hc
  · obtain ⟨-, h2⟩ := hc
    simp only [List.length_append, List.length_singleton]
    omega
  · exact h

lemma shootingTick_length_le (roll : Bool) (newSS : ShootingStar)
    (l : List ShootingStar) (h : l.length ≤ 2) :
    (shootingTick roll newSS l).length ≤ 2 := by
  unfold shootingTick
  calc (cullShootingStars ((spawnPhase roll newSS l).map advanceShootingStar)).length
      ≤ ((spawnPhase roll newSS l).map advanceShootingStar).length :=
        cullShootingStars_length_le _
    _ = (spawnPhase roll newSS l).length := by simp
    _ ≤ 2 := spawnPhase_length_le roll newSS l h

lemma runShootingTicks_length_le (ins : ℕ → Bool × ShootingStar) (n : ℕ)
    (l : List ShootingStar) (h : l.length ≤ 2) :
    (runShootingTicks ins n l).length ≤ 2 := by
  induction n generalizing l with
  | zero => exact h
  | succ k ih =>
    simp only [runShootingTicks]
    exact ih _ (shootingTick_length_le _ _ _ h)

/-- C4: at every tick boundary there are at most 2 active shooting stars:
starting from none, any number of ticks leaves at most 2; a tick preserves
the cap; the spawn step adds exactly one entity, and only when fewer than 2
are active. -/
theorem shooting_star_cap (roll : Bool) (newSS : ShootingStar)
    (ins : ℕ → Bool × ShootingStar) (n : ℕ) (l : List ShootingStar) :
    (runShootingTicks ins n []).length ≤ 2 ∧
    (l.length ≤ 2 → (shootingTick roll newSS l).length ≤ 2) ∧
    (roll = true → l.length < 2 → (spawnPhase roll newSS l).length = l.length + 1) ∧
    (2 ≤ l.length → spawnPhase roll newSS l = l) := by
  refine ⟨runShootingTicks_length_le ins n [] (by simp),
    shootingTick_length_le roll newSS l, ?_, ?_⟩
  · intro hr hlen
    simp only [spawnPhase]
    rw [if_pos ⟨hr, hlen⟩]
    simp
  · intro h2
    simp only [spawnPhase]
    rw [if_neg (fun hc => absurd hc.2 (by omega))]

/-- A concrete fresh shooting star, for witnesses. -/
def ss0 : ShootingStar := ⟨0, 0, 7, 7, 1, 0.02, [], 28, 1.5⟩

/-- Witness for C4 on concrete runs: three ticks from the empty set, a tick
at the cap, a spawn below the cap and a refused spawn at the cap. -/
theorem shooting_star_cap_witness :
    (([] : List ShootingStar).length ≤ 2 ∧ true = true ∧
      ([] : List ShootingStar).length < 2 ∧ 2 ≤ [ss0, ss0].length) ∧
    (runShootingTicks (fun _ => (true, ss0)) 3 []).length ≤ 2 ∧
    (shootingTick true ss0 []).length ≤ 2 ∧
    (spawnPhase true ss0 []).length = ([] : List ShootingStar).length + 1 ∧
    spawnPhase true ss0 [ss0, ss0] = [ss0, ss0] := by
  refine ⟨⟨by simp, rfl, by simp, by simp⟩, ?_, ?_, ?_, ?_⟩
  · exact (shooting_star_cap true ss0 (fun _ => (true, ss0)) 3 []).1
  · exact (shooting_star_cap true ss0 (fun _ => (true, ss0)) 3 []).2.1 (by simp)
  · exact (shooting_star_cap true ss0 (fun _ => (true, ss0)) 3 []).2.2.1 rfl (by simp)
  · exact (shooting_star_cap true ss0 (fun _ => (true, ss0)) 3 [ss0, ss0]).2.2.2 (by simp)

/-- C9: a shooting star's life drops by exactly its decay rate each tick —
hence is non-increasing for a nonnegative decay rate — and every entity
still active at a tick boundary has life > 0 (an entity whose decremented
life reached ≤ 0 was removed within that same tick). -/
theorem shooting_star_life_rule (ss : ShootingStar) (h : 0 ≤ ss.decay)
    (roll : Bool) (newSS : ShootingStar) (l : List ShootingStar) :
    (advanceShootingStar ss).life = ss.life - ss.decay ∧
    (advanceShootingStar ss).life ≤ ss.life ∧
    ∀ s' ∈ shootingTick roll newSS l, 0 < s'.life := by
  have hlife : (advanceShootingStar ss).life = ss.life - ss.decay := rfl
  refine ⟨hlife, by rw [hlife]; linarith, ?_⟩
  intro s' hs'
  exact mem_cullShootingStars hs'

/-- Witness for C9 at a decay rate of 0.02. -/
theorem shooting_star_life_rule_witness :
    0 ≤ ss0.decay ∧
    ((advanceShootingStar ss0).life = ss0.life - ss0.decay ∧
     (advanceShootingStar ss0).life ≤ ss0.life ∧
     ∀ s' ∈ shootingTick true ss0 [], 0 < s'.life) :=
  ⟨by norm_num [ss0], shooting_star_life_rule ss0 (by norm_num [ss0]) true ss0 []⟩

/-! ### Theorems: C6 and C7 -/

/-- C6: after initialization or any resize with surface dimensions W and H,
the star population size equals min(280, floor(W*H/5200)); in particular a
1000 by 800 surface yields 153 stars. -/
theorem initStars_length (W H : ℕ) (mk : ℕ → Star) :
    (initStars W H mk).length = min 280 (W * H / 5200) ∧
    (initStars 1000 800 mk).length = 153 := by
  constructor
  · simp [initStars, starCount]
  · simp [initStars, starCount]

/-- C7: for every nonnegative scroll offset (with a positive viewport
height), the dim factor lies in [0.35, 1.0]; a scroll offset of exactly
1.8 times the viewport height yields 0.35, and offset 0 yields 1.0. -/
theorem scrollDim_bounds (scrollY vh : ℚ) (hs : 0 ≤ scrollY) (hv : 0 < vh) :
    0.35 ≤ scrollDimOf scrollY vh ∧
    scrollDimOf scrollY vh ≤ 1 ∧
    scrollDimOf (1.8 * vh) vh = 0.35 ∧
    scrollDimOf 0 vh = 1 := by
  refine ⟨le_max_left _ _, ?_, ?_, ?_⟩
  · apply max_le (by norm_num)
    have : 0 ≤ scrollY / (vh * 1.8) := by positivity
    linarith
  · have h18 : vh * 1.8 ≠ 0 := by positivity
    have : (1.8 * vh) / (vh * 1.8) = 1 := by
      rw [mul_comm 1.8 vh]
      exact div_self h18
    simp only [scrollDimOf, this]
    norm_num
  · simp only [scrollDimOf]
    norm_num

/-- Witness for C7 at scroll offset 0 and viewport height 1. -/
theorem scrollDim_bounds_witness :
    0 ≤ (0 : ℚ) ∧ 0 < (1 : ℚ) ∧
    (0.35 ≤ scrollDimOf 0 1 ∧ scrollDimOf 0 1 ≤ 1 ∧
      scrollDimOf (1.8 * 1) 1 = 0.35 ∧ scrollDimOf 0 1 = 1) :=
  ⟨le_refl 0, one_pos, scrollDim_bounds 0 1 (le_refl 0) one_pos⟩

end StarryNight
